import Mathlib

/-!
# Verification of the `ai-token-exo-bridge` provider-selection and healing layer

This file gives a shallow embedding, in Lean 4, of the parts of the
`ai-token-exo-bridge` Python repository that the specification talks about:

* `src/holmesian_solver.py`   — the Holmesian option solver (`HolmesianSolver`);
* `src/provider_preflight.py` — provider pre-flight validation
  (`ProviderPreFlightValidator.validate_provider`);
* `src/model_ui_sync.py`      — the model/UI synchronisation cache
  (`ModelUISyncEnforcer.sync_provider_models`);
* `src/advanced_self_healing.py` — the self-healing manager
  (`AdvancedSelfHealingManager`);
* `src/bridge_manager.py`     — the cloud-provider loop inside
  `ExoBridgeManager.chat_completion`.

Modelling conventions:

* Python dictionaries used as records become Lean structures whose field
  defaults mirror the `dict.get(key, default)` defaults of the source.
* Python `float` scores become `Rat` (the code only adds, subtracts,
  multiplies by constant decimal weights and divides counts, so rationals
  model it exactly).
* Wall-clock `datetime.now()` values become `Nat` timestamps (seconds),
  threaded explicitly through the functions that read the clock.
* HTTP traffic is abstracted by passing each probe's outcome as an explicit
  argument (an oracle); everything the Python code does *with* an outcome is
  translated faithfully.
* A fallible Python path returns `Except PyError`; in particular `min` on
  members of a plain (underived, unordered) `enum.Enum` raises `TypeError`
  in Python, and is modelled by a function that returns
  `Except.error PyError.typeError`.
* Insertion-ordered Python dicts become association lists
  (`List (key × value)`) with insert-or-overwrite preserving position, which
  is Python's dict-update behaviour.
* Python's stable `list.sort(key=...)` becomes a stable insertion sort
  (`pySortBy`), with the comparator spelling out the key (and `reverse=True`
  becoming the flipped strict comparator, which preserves stability exactly
  as CPython does).
-/

namespace PyPrim

/-- Errors a modelled Python fragment can raise. -/
inductive PyError where
  | typeError
  deriving DecidableEq, Repr

/-- `needle ∈ haystack` on Python strings (`in` on `str`), as a Bool. -/
def containsSub (needle s : String) : Bool :=
  s.toList.tails.any (fun t => needle.toList.isPrefixOf t)

/-- Python `str(x)` for `x : Optional[str]`: `None` prints as `"None"`. -/
def strOfOpt : Option String → String
  | none => "None"
  | some s => s

/-- ASCII lowering of one character; the error strings the code lowercases
are ASCII, for which this is exactly Python's `str.lower()`. -/
def lowerChar (c : Char) : Char :=
  if 'A' ≤ c ∧ c ≤ 'Z' then Char.ofNat (c.toNat + 32) else c

/-- Python `s.lower()` on ASCII strings. -/
def lowerStr (s : String) : String :=
  String.mk (s.toList.map lowerChar)

/-- The value of `a or b` for two optional strings followed by an
`if not result:` missing-check, as the Python provider code uses it:
the first *truthy* (non-empty, non-`None`) string wins; `none` when both are
falsy. -/
def effectiveKey (a b : Option String) : Option String :=
  match a with
  | some s => if s ≠ "" then some s else
      match b with
      | some t => if t ≠ "" then some t else none
      | none => none
  | none =>
      match b with
      | some t => if t ≠ "" then some t else none
      | none => none

/-- Lookup in an insertion-ordered dict modelled as an association list
(`d[k]` / `d.get(k)`). -/
def dictGet? [BEq κ] (l : List (κ × β)) (k : κ) : Option β :=
  (l.find? (fun kv => kv.1 == k)).map (·.2)

/-- `d[k] = v` on an insertion-ordered Python dict: overwrite in place when
the key exists (keeping its position), append otherwise. -/
def dictInsert [BEq κ] (l : List (κ × β)) (k : κ) (v : β) : List (κ × β) :=
  if l.any (fun kv => kv.1 == k) then
    l.map (fun kv => if kv.1 == k then (k, v) else kv)
  else
    l ++ [(k, v)]

/-- One step of stable insertion: place `x` before the first element `b`
that does not strictly precede it (`lt b x = false`).  With `lt` the strict
key comparison this is exactly CPython's stable sort order. -/
def pyInsertBy (lt : α → α → Bool) (x : α) : List α → List α
  | [] => [x]
  | b :: t => if lt b x then b :: pyInsertBy lt x t else x :: b :: t

/-- Stable sort modelling Python's `list.sort` with a strict key
comparator: ascending sorts use `lt a b := key a < key b`, and
`reverse=True` sorts use `lt a b := key b < key a`. -/
def pySortBy (lt : α → α → Bool) : List α → List α
  | [] => []
  | x :: xs => pyInsertBy lt x (pySortBy lt xs)

theorem length_pyInsertBy (lt : α → α → Bool) (x : α) (l : List α) :
    (pyInsertBy lt x l).length = l.length + 1 := by
  induction l with
  | nil => rfl
  | cons b t ih =>
    simp only [pyInsertBy]
    split <;> simp [ih]

theorem length_pySortBy (lt : α → α → Bool) (l : List α) :
    (pySortBy lt l).length = l.length := by
  induction l with
  | nil => rfl
  | cons x xs ih => simp [pySortBy, length_pyInsertBy, ih]

theorem mem_pyInsertBy (lt : α → α → Bool) (x y : α) (l : List α) :
    y ∈ pyInsertBy lt x l ↔ y = x ∨ y ∈ l := by
  induction l with
  | nil => simp [pyInsertBy]
  | cons b t ih =>
    simp only [pyInsertBy]
    split <;> simp only [List.mem_cons, ih] <;> tauto

theorem mem_pySortBy (lt : α → α → Bool) (y : α) (l : List α) :
    y ∈ pySortBy lt l ↔ y ∈ l := by
  induction l with
  | nil => simp [pySortBy]
  | cons x xs ih =>
    simp only [pySortBy, mem_pyInsertBy, List.mem_cons, ih]

end PyPrim

namespace Holmesian

open PyPrim

/-- `ImpossibilityReason` enum of `holmesian_solver.py`. -/
inductive ImpossibilityReason where
  | API_KEY_MISSING
  | API_KEY_INVALID
  | ENDPOINT_UNREACHABLE
  | PROVIDER_DOWN
  | MODEL_UNAVAILABLE
  | PREMIUM_ONLY
  | FREE_MODE_LOCKED
  | RATE_LIMITED
  | QUOTA_EXCEEDED
  | AUTHENTICATION_FAILED
  | NETWORK_ERROR
  | CONFIGURATION_ERROR
  | INCOMPATIBLE_VERSION
  | DEPRECATED
  | REQUIRES_APPROVAL
  | GEOGRAPHIC_RESTRICTION
  deriving DecidableEq, Repr

/-- `SolutionViability` enum.  Note: in the source this is a plain
`enum.Enum` (not an `IntEnum` and with no ordering methods), so its members
do **not** support `<`. -/
inductive SolutionViability where
  | OPTIMAL
  | VIABLE
  | IMPROBABLE
  | DEGRADED
  | IMPOSSIBLE
  deriving DecidableEq, Repr

/-- Python's `min` applied to two members of the plain Enum
`SolutionViability` (`min(viability, SolutionViability.DEGRADED)` in
`_evaluate_possibility`): `min` compares its arguments with `<`, which is
unsupported between plain Enum members, so the call raises `TypeError`. -/
def pyMinViability (_a _b : SolutionViability) : Except PyError SolutionViability :=
  .error .typeError

/-- An input possibility dict.  Field defaults are the `possibility.get`
defaults used by `_evaluate_possibility`; a key absent from the dict is the
default value here.  The opaque `metadata` sub-dict is not modelled (nothing
in the evaluated claims reads it). -/
structure Possibility where
  id : String := "unknown"
  name : String := "Unknown"
  available : Bool := true
  healthy : Bool := true
  authenticated : Bool := false
  is_free : Bool := false
  requires_payment : Bool := false
  rate_limited : Bool := false
  quota_exceeded : Bool := false
  requires_approval : Bool := false
  approval_pending : Bool := false
  deprecated : Bool := false
  reachable : Bool := true
  trust_score : Rat := 50
  deriving DecidableEq, Repr

/-- `Impossibility` dataclass. -/
structure Impossibility where
  reason : ImpossibilityReason
  message : String
  suggestion : Option String := none
  can_be_resolved : Bool := false
  resolution_steps : List String := []
  deriving DecidableEq, Repr

/-- `Solution` dataclass (minus the opaque `metadata` dict). -/
structure Solution where
  id : String
  name : String
  viability : SolutionViability
  score : Rat
  is_free : Bool
  is_available : Bool
  is_healthy : Bool
  is_authenticated : Bool
  compromises : List String := []
  warnings : List String := []
  reasons : List String := []
  limitations : List String := []
  deriving DecidableEq, Repr

/-- `Solution.is_viable`. -/
def Solution.is_viable (s : Solution) : Bool :=
  s.viability != SolutionViability.IMPOSSIBLE

/-- Constraints dict; the only key the solver reads is `free_only`
(`constraints.get('free_only', False)`). -/
structure Constraints where
  free_only : Bool := false
  deriving DecidableEq, Repr

/-- `HolmesianSolver.__init__` configuration. -/
structure SolverConfig where
  free_mode : Bool := true
  strict_mode : Bool := true
  auto_select_single : Bool := true
  deriving DecidableEq, Repr

/-- `HolmesianSolver._evaluate_possibility`, translated check by check.
The mutable `viability`/`score`/list accumulators become rebindings; the
`min(viability, SolutionViability.DEGRADED)` calls go through
`pyMinViability`, which raises, so `Except` threads the `TypeError` exactly
where Python would propagate it. -/
def evaluatePossibility (p : Possibility) (constraints : Constraints) :
    Except PyError Solution := do
  -- Check availability
  if p.available = false then
    return { id := p.id, name := p.name, viability := .IMPOSSIBLE, score := 0,
             is_free := false, is_available := false, is_healthy := false,
             is_authenticated := false,
             limitations := ["Provider/model is unavailable"] }
  -- Check health status
  let viability : SolutionViability := .OPTIMAL
  let score : Rat := 100
  let (viability, score, warnings, limitations) :=
    if p.healthy = false then
      (SolutionViability.DEGRADED, score - 30,
       ["Service health degraded"], ["May experience issues or downtime"])
    else (viability, score, [], [])
  -- Check authentication
  if p.authenticated = false then
    return { id := p.id, name := p.name, viability := .IMPOSSIBLE, score := 0,
             is_free := false, is_available := p.available,
             is_healthy := p.healthy, is_authenticated := false,
             limitations := ["No valid API key configured"] }
  -- Check free tier requirement
  if constraints.free_only && (p.is_free = false || p.requires_payment) then
    return { id := p.id, name := p.name, viability := .IMPOSSIBLE, score := 0,
             is_free := false, is_available := p.available,
             is_healthy := p.healthy, is_authenticated := p.authenticated,
             limitations := ["Premium/paid model in free-only mode"] }
  -- Check rate limits
  let (viability, score, warnings, compromises) ←
    if p.rate_limited then do
      let v ← pyMinViability viability .DEGRADED
      pure (v, score - 20, warnings ++ ["Currently rate limited"],
            ["May need to wait between requests"])
    else pure (viability, score, warnings, ([] : List String))
  -- Check quota
  if p.quota_exceeded then
    return { id := p.id, name := p.name, viability := .IMPOSSIBLE, score := 0,
             is_free := p.is_free, is_available := p.available,
             is_healthy := p.healthy, is_authenticated := p.authenticated,
             limitations := ["Quota exceeded"] }
  -- Check requires approval
  if p.requires_approval && p.approval_pending then
    return { id := p.id, name := p.name, viability := .IMPOSSIBLE, score := 0,
             is_free := p.is_free, is_available := p.available,
             is_healthy := p.healthy, is_authenticated := p.authenticated,
             limitations := ["Awaiting manual approval"] }
  -- Check deprecated
  let (viability, score, warnings, limitations) ←
    if p.deprecated then do
      let v ← pyMinViability viability .DEGRADED
      pure (v, score - 40, warnings ++ ["This option is deprecated"],
            limitations ++ ["May be removed in future"])
    else pure (viability, score, warnings, limitations)
  -- Check network reachability
  if p.reachable = false then
    return { id := p.id, name := p.name, viability := .IMPOSSIBLE, score := 0,
             is_free := p.is_free, is_available := p.available,
             is_healthy := false, is_authenticated := p.authenticated,
             limitations := ["Endpoint unreachable"] }
  -- Add reasons for viability
  let reasons : List String :=
    (if p.is_free then ["Free tier available"] else []) ++
    (if p.healthy then ["Service healthy"] else []) ++
    (if p.authenticated then ["Authenticated and ready"] else [])
  -- Calculate final score adjustments
  let score := score * (7 / 10) + p.trust_score * (3 / 10)
  return { id := p.id, name := p.name, viability := viability, score := score,
           is_free := p.is_free, is_available := p.available,
           is_healthy := p.healthy, is_authenticated := p.authenticated,
           compromises := compromises, warnings := warnings,
           reasons := reasons, limitations := limitations }

/-- `HolmesianSolver._create_impossibility`.  The `possibility` parameter is
accepted but unread, as in the source. -/
def createImpossibility (cfg : SolverConfig) (_possibility : Possibility)
    (solution : Solution) : Impossibility :=
  if solution.is_authenticated = false then
    { reason := .API_KEY_MISSING,
      message := solution.name ++ ": No API key configured",
      suggestion := some "Configure API key in settings",
      can_be_resolved := true,
      resolution_steps := ["Go to Settings", "Add API key for provider",
                           "Lock key to save"] }
  else if solution.is_available = false then
    { reason := .MODEL_UNAVAILABLE,
      message := solution.name ++ ": Currently unavailable",
      suggestion := some "Try another provider or wait for service restoration",
      can_be_resolved := false,
      resolution_steps := [] }
  else if solution.is_free = false && cfg.free_mode then
    { reason := .FREE_MODE_LOCKED,
      message := solution.name ++ ": Premium model in free-only mode",
      suggestion := some "Enable paid models in settings (billing risk)",
      can_be_resolved := true,
      resolution_steps := ["Go to Settings", "Toggle Allow Paid Models",
                           "Verify billing protection"] }
  else if solution.is_healthy = false then
    { reason := .ENDPOINT_UNREACHABLE,
      message := solution.name ++ ": Service unreachable or unhealthy",
      suggestion := some "Check internet connection or try another provider",
      can_be_resolved := true,
      resolution_steps := ["Verify internet connection",
                           "Check provider status page",
                           "Try alternative provider"] }
  else if solution.limitations.contains "Quota exceeded" then
    { reason := .QUOTA_EXCEEDED,
      message := solution.name ++ ": Quota exceeded",
      suggestion := some "Wait for quota reset or upgrade plan",
      can_be_resolved := true,
      resolution_steps := ["Wait for quota reset", "Check provider dashboard",
                           "Consider upgrading"] }
  else if solution.limitations.contains "Awaiting manual approval" then
    { reason := .REQUIRES_APPROVAL,
      message := solution.name ++ ": Awaiting approval",
      suggestion := some "Check email for approval status",
      can_be_resolved := true,
      resolution_steps := ["Check email (including spam)",
                           "Wait 1-2 business days",
                           "Contact provider support if delayed"] }
  else
    { reason := .CONFIGURATION_ERROR,
      message := solution.name ++ ": Configuration error",
      suggestion := some "Check configuration and try again",
      can_be_resolved := true,
      resolution_steps := ["Review provider configuration",
                           "Verify all settings", "Restart HUD if needed"] }

/-- Tuple-key comparison of `_rank_solutions`: Python sorts ascending by
`(viability_order, -score)`. -/
def rankKeyLt (a b : Solution) : Bool :=
  let va := match a.viability with
    | .OPTIMAL => 0 | .VIABLE => 1 | .IMPROBABLE => 2
    | .DEGRADED => 3 | .IMPOSSIBLE => 4
  let vb := match b.viability with
    | .OPTIMAL => 0 | .VIABLE => 1 | .IMPROBABLE => 2
    | .DEGRADED => 3 | .IMPOSSIBLE => 4
  decide (va < vb) || (va == vb && decide (b.score < a.score))

/-- `HolmesianSolver._rank_solutions`. -/
def rankSolutions (solutions : List Solution) : List Solution :=
  pySortBy rankKeyLt solutions

/-- The `for possibility in possibilities` loop of `HolmesianSolver.solve`,
with the two accumulating lists. -/
def solveLoop (cfg : SolverConfig) (constraints : Constraints) :
    List Possibility → List Solution → List Impossibility →
    Except PyError (List Solution × List Impossibility)
  | [], sols, imps => .ok (sols, imps)
  | p :: rest, sols, imps => do
    let s ← evaluatePossibility p constraints
    if s.is_viable then
      solveLoop cfg constraints rest (sols ++ [s]) imps
    else
      solveLoop cfg constraints rest sols (imps ++ [createImpossibility cfg p s])

/-- `HolmesianSolver.solve`.  `constraints = none` models calling without a
constraints dict; `free_mode` overrides `free_only` exactly as the source
does before the candidate loop. -/
def solve (cfg : SolverConfig) (possibilities : List Possibility)
    (constraints : Option Constraints) :
    Except PyError (List Solution × List Impossibility) := do
  let cs := constraints.getD {}
  let cs := if cfg.free_mode then { cs with free_only := true } else cs
  let (sols, imps) ← solveLoop cfg cs possibilities [] []
  return (rankSolutions sols, imps)

end Holmesian

namespace Holmesian

/-- A candidate that survives every elimination check but is currently
rate limited: `solve` reaches `min(viability, SolutionViability.DEGRADED)`
on it. -/
def rateLimitedCandidate : Possibility :=
  { id := "openrouter", name := "OpenRouter", authenticated := true,
    is_free := true, rate_limited := true }

/-- A candidate whose `available` flag is false. -/
def unavailableCandidate : Possibility :=
  { id := "p1", name := "ProviderOne", available := false,
    authenticated := true, is_free := true }

/-- Helper: the non-error part of `evaluatePossibility` (every check except
the two `min` calls returns a value). -/
theorem evaluatePossibility_ok (p : Possibility) (c : Constraints)
    (h1 : p.rate_limited = false) (h2 : p.deprecated = false) :
    ∃ s, evaluatePossibility p c = .ok s := by
  obtain ⟨i, n, avail, healthy, auth, isf, reqp, ratel, quota, reqa, appp,
    depr, reach, trust⟩ := p
  obtain ⟨fo⟩ := c
  simp only at h1 h2
  subst h1 h2
  cases avail <;> cases healthy <;> cases auth <;> cases fo <;> cases isf <;>
    cases reqp <;> cases quota <;> cases reqa <;> cases appp <;> cases reach <;>
    exact ⟨_, rfl⟩

/-- Helper: counting and viability bookkeeping of the `solve` loop. -/
theorem solveLoop_spec (cfg : SolverConfig) (cs : Constraints)
    (l : List Possibility) (sols : List Solution) (imps : List Impossibility)
    (h : ∀ p ∈ l, p.rate_limited = false ∧ p.deprecated = false) :
    ∃ sols' imps', solveLoop cfg cs l sols imps = .ok (sols', imps') ∧
      sols'.length + imps'.length = sols.length + imps.length + l.length ∧
      (∀ s ∈ sols', s ∈ sols ∨ s.is_viable = true) := by
  induction l generalizing sols imps with
  | nil =>
    exact ⟨sols, imps, rfl, by simp, fun s hs => Or.inl hs⟩
  | cons p rest ih =>
    obtain ⟨s, hs⟩ := evaluatePossibility_ok p cs (h p (by simp)).1 (h p (by simp)).2
    have hrest : ∀ q ∈ rest, q.rate_limited = false ∧ q.deprecated = false :=
      fun q hq => h q (List.mem_cons_of_mem _ hq)
    by_cases hv : s.is_viable = true
    · obtain ⟨sols', imps', heq, hlen, hmem⟩ := ih (sols ++ [s]) imps hrest
      refine ⟨sols', imps', ?_, by simp at hlen ⊢; omega, ?_⟩
      · simp only [solveLoop, hs, Bind.bind, Except.bind, hv, if_true]
        exact heq
      · intro t ht
        rcases hmem t ht with h' | h'
        · rcases List.mem_append.mp h' with h'' | h''
          · exact Or.inl h''
          · simp only [List.mem_singleton] at h''
            subst h''
            exact Or.inr hv
        · exact Or.inr h'
    · obtain ⟨sols', imps', heq, hlen, hmem⟩ :=
        ih sols (imps ++ [createImpossibility cfg p s]) hrest
      refine ⟨sols', imps', ?_, by simp at hlen ⊢; omega, hmem⟩
      simp only [solveLoop, hs, Bind.bind, Except.bind, hv, if_false]
      exact heq

end Holmesian

namespace Holmesian

open PyPrim

/-- **C2** (code bug, failing evaluation): on a candidate that survives all
elimination checks but has `rate_limited = True`, `solve` does not return a
value: the `min(viability, SolutionViability.DEGRADED)` call inside
`_evaluate_possibility` compares plain-Enum members and raises `TypeError`,
which propagates out of `solve`.  The spec says solve never raises and
subtracts 20 from the score here. -/
theorem solve_raises_on_rate_limited :
    solve {} [rateLimitedCandidate] none = .error PyError.typeError := by
  rfl

/-- **C3** (code bug, failing evaluation): for a candidate whose
`available` flag is false, `solve` eliminates it, but the recorded
`Impossibility` carries reason `API_KEY_MISSING`, not the
`MODEL_UNAVAILABLE` the spec promises: the unavailable `Solution` is built
with `is_authenticated=False` hard-coded, and `_create_impossibility`
tests authentication before availability, so its `MODEL_UNAVAILABLE`
branch is unreachable. -/
theorem solve_unavailable_misreports_reason :
    (solve {} [unavailableCandidate] none).map (fun r => r.2.map (·.reason))
        = .ok [ImpossibilityReason.API_KEY_MISSING] ∧
      ImpossibilityReason.API_KEY_MISSING ≠ ImpossibilityReason.MODEL_UNAVAILABLE := by
  exact ⟨by rfl, by decide⟩

/-- **C10** (confirmed): when no input candidate is rate limited or
deprecated, `solve` returns a value that accounts for every candidate
exactly once — the viable solutions and the impossibilities partition the
input by count — and no returned solution has viability `IMPOSSIBLE`
(each eliminated candidate contributes exactly one `Impossibility`, since
the counts add up). -/
theorem solve_accounts_each_candidate (cfg : SolverConfig)
    (l : List Possibility) (c : Option Constraints)
    (h : ∀ p ∈ l, p.rate_limited = false ∧ p.deprecated = false) :
    ∃ sols imps, solve cfg l c = .ok (sols, imps) ∧
      sols.length + imps.length = l.length ∧
      ∀ s ∈ sols, s.viability ≠ SolutionViability.IMPOSSIBLE := by
  obtain ⟨sols', imps', heq, hlen, hmem⟩ :=
    solveLoop_spec cfg
      (if cfg.free_mode then { (c.getD {}) with free_only := true }
       else c.getD {}) l [] [] h
  refine ⟨rankSolutions sols', imps', ?_, ?_, ?_⟩
  · simp only [solve, Bind.bind, Except.bind, heq, pure, Except.pure]
  · simpa [rankSolutions, length_pySortBy] using hlen
  · intro s hsm
    have hm := hmem s ((mem_pySortBy rankKeyLt s sols').mp hsm)
    rcases hm with h' | h'
    · simp at h'
    · simpa [Solution.is_viable, bne_iff_ne] using h'

/-- Concrete input for exercising `solve_accounts_each_candidate`: one
surviving candidate and one eliminated candidate, neither rate limited nor
deprecated. -/
def accountingInput : List Possibility :=
  [{ id := "or", name := "OpenRouter", authenticated := true, is_free := true },
   unavailableCandidate]

/-- Witness for **C10**: the partition theorem applied at a concrete
two-candidate input. -/
theorem solve_accounts_each_candidate_witness :
    ∃ sols imps, solve {} accountingInput none = .ok (sols, imps) ∧
      sols.length + imps.length = accountingInput.length ∧
      ∀ s ∈ sols, s.viability ≠ SolutionViability.IMPOSSIBLE :=
  solve_accounts_each_candidate {} accountingInput none (by
    intro p hp
    simp only [accountingInput, List.mem_cons, List.not_mem_nil, or_false] at hp
    rcases hp with rfl | rfl <;> exact ⟨rfl, rfl⟩)

end Holmesian

namespace PreflightVal

open PyPrim

/-- `ValidationStatus` enum of `provider_preflight.py`. -/
inductive ValidationStatus where
  | VALID
  | INVALID_KEY
  | NO_PERMISSION
  | NO_MODELS
  | CONNECTION_ERROR
  | UNKNOWN
  deriving DecidableEq, Repr

/-- `ValidationResult` dataclass. -/
structure ValidationResult where
  status : ValidationStatus
  provider_name : String
  success : Bool
  available_models : List String := []
  tested_model : Option String := none
  error_message : Option String := none
  fix_steps : List String := []
  dashboard_url : Option String := none
  required_scopes : List String := []
  deriving DecidableEq, Repr

/-- The slice of the provider-config dict that `validate_provider` reads.
`base_url`/endpoint/header entries only shape the HTTP requests, which are
abstracted into the probe outcomes below. -/
structure ProviderConfig where
  name : String
  api_key : Option String := none
  api_key_encrypted : Option String := none
  deriving DecidableEq, Repr

/-- Outcome of `_test_model_listing`: the `(model_ids, error)` pair it
returns once the HTTP exchange and JSON parsing are done. -/
structure ListingOutcome where
  models : List String := []
  error : Option String := none
  deriving DecidableEq, Repr

/-- Outcome of `_test_inference` for a given model: the
`(success, error)` pair it returns. -/
structure InferenceOutcome where
  ok : Bool
  error : Option String := none
  deriving DecidableEq, Repr

/-- `"401" in str(e) or "unauthorized" in str(e).lower()`. -/
def is401Err (e : String) : Bool :=
  containsSub "401" e || containsSub "unauthorized" (lowerStr e)

/-- `"403" in str(e) or "forbidden" in str(e).lower()`. -/
def is403Err (e : String) : Bool :=
  containsSub "403" e || containsSub "forbidden" (lowerStr e)

/-- `DASHBOARD_URLS` class attribute. -/
def DASHBOARD_URLS : List (String × String) :=
  [("OpenRouter", "https://openrouter.ai/keys"),
   ("Hugging Face", "https://huggingface.co/settings/tokens"),
   ("Together AI", "https://api.together.xyz/settings/api-keys"),
   ("Anthropic", "https://console.anthropic.com/settings/keys"),
   ("OpenAI", "https://platform.openai.com/api-keys")]

/-- `REQUIRED_SCOPES` class attribute. -/
def REQUIRED_SCOPES : List (String × List String) :=
  [("OpenRouter", ["api.read", "api.inference"]),
   ("Hugging Face", ["inference-api", "read-repos"]),
   ("Together AI", ["inference"]),
   ("Anthropic", ["messages:write"]),
   ("OpenAI", ["completions.create"])]

/-- `_get_permission_fix_steps` (the `include_inference` flag is accepted
and ignored, as in the source body). -/
def getPermissionFixSteps (provider_name : String) (_include_inference : Bool) :
    List String :=
  let base_steps :=
    ["1. Go to " ++ provider_name ++ " dashboard",
     "2. Navigate to API keys/tokens section",
     "3. Check current token permissions"]
  if provider_name = "Hugging Face" then
    base_steps ++
      ["4. Enable Make calls to serverless Inference API permission",
       "5. Enable Read access to contents of all repos if needed",
       "6. Save token settings", "7. Update token in HUD", "8. Reconnect"]
  else if provider_name = "OpenRouter" then
    base_steps ++
      ["4. Ensure account has credits/billing enabled",
       "5. Check model access permissions", "6. Regenerate key if needed",
       "7. Update in HUD and reconnect"]
  else if provider_name = "Together AI" then
    base_steps ++
      ["4. Verify API key has inference scope", "5. Check billing is active",
       "6. Regenerate key with full permissions", "7. Update in HUD"]
  else
    base_steps ++
      ["4. Regenerate API key with full permissions", "5. Update in HUD",
       "6. Reconnect"]

/-- `ProviderPreFlightValidator.validate_provider`.

The validation cache is the `validation_cache` dict; note that when a cache
entry exists and `force_refresh` is false the source always uses it: the
age test reads a `timestamp` key that `ValidationResult.to_dict()` never
emits, so the `datetime.now()` fallback makes the age (essentially) zero,
which is below `cache_ttl`.

The two network probes are passed in as outcomes: `listing` is what
`_test_model_listing` returned and `inference m` what `_test_inference`
returned for tested model `m`. -/
def validateProvider (cache : List (String × ValidationResult))
    (provider_name : String) (cfg : ProviderConfig) (force_refresh : Bool)
    (listing : ListingOutcome) (inference : String → InferenceOutcome) :
    ValidationResult × List (String × ValidationResult) :=
  let cache_key := provider_name ++ "_" ++ (cfg.api_key.getD "").take 10
  match (if force_refresh = false then dictGet? cache cache_key else none) with
  | some cached => (cached, cache)
  | none =>
    -- Step 1: Validate API key exists
    match effectiveKey cfg.api_key cfg.api_key_encrypted with
    | none =>
      ({ status := .INVALID_KEY, provider_name := provider_name,
         success := false, error_message := some "No API key configured",
         fix_steps := ["1. Get API key from provider dashboard",
                       "2. Enter key in HUD sidebar", "3. Click Save API Keys",
                       "4. Reconnect"],
         dashboard_url := dictGet? DASHBOARD_URLS provider_name }, cache)
    | some _api_key =>
      -- Step 2: Test model listing
      match listing.error with
      | some e =>
        if is401Err e then
          ({ status := .INVALID_KEY, provider_name := provider_name,
             success := false,
             error_message := some ("API key invalid: " ++ e),
             fix_steps := ["1. Check API key is correct",
                           "2. Regenerate key in provider dashboard",
                           "3. Update key in HUD", "4. Reconnect"],
             dashboard_url := dictGet? DASHBOARD_URLS provider_name }, cache)
        else if is403Err e then
          ({ status := .NO_PERMISSION, provider_name := provider_name,
             success := false,
             error_message := some ("Insufficient permissions: " ++ e),
             fix_steps := getPermissionFixSteps provider_name false,
             dashboard_url := dictGet? DASHBOARD_URLS provider_name,
             required_scopes :=
               (dictGet? REQUIRED_SCOPES provider_name).getD [] }, cache)
        else
          ({ status := .CONNECTION_ERROR, provider_name := provider_name,
             success := false, error_message := some e,
             fix_steps := ["1. Check internet connection",
                           "2. Verify provider is not down",
                           "3. Try again later"] }, cache)
      | none =>
        match listing.models with
        | [] =>
          ({ status := .NO_MODELS, provider_name := provider_name,
             success := false, error_message := some "No models available",
             fix_steps := ["1. Check account has model access",
                           "2. Verify billing is enabled",
                           "3. Contact provider support"],
             dashboard_url := dictGet? DASHBOARD_URLS provider_name }, cache)
        | test_model :: _ =>
          -- Step 3: Test inference with first available model
          let probe := inference test_model
          if probe.ok = false && is403Err (strOfOpt probe.error) then
            ({ status := .NO_PERMISSION, provider_name := provider_name,
               success := false, available_models := listing.models,
               tested_model := some test_model,
               error_message :=
                 some ("Inference forbidden: " ++ strOfOpt probe.error),
               fix_steps := getPermissionFixSteps provider_name true,
               dashboard_url := dictGet? DASHBOARD_URLS provider_name,
               required_scopes :=
                 (dictGet? REQUIRED_SCOPES provider_name).getD [] }, cache)
          else
            -- Success!  (Reached even when the inference probe failed for
            -- any reason other than 403/forbidden.)
            let result : ValidationResult :=
              { status := .VALID, provider_name := provider_name,
                success := true, available_models := listing.models,
                tested_model := some test_model, error_message := none }
            (result, dictInsert cache cache_key result)

end PreflightVal

namespace PreflightVal

open PyPrim

/-- A listing probe that succeeded with one model. -/
def listingOneModel : ListingOutcome := { models := ["m1"] }

/-- An inference probe that fails with an HTTP 500 error (not a
permission error). -/
def inferenceServerError : String → InferenceOutcome :=
  fun _ => { ok := false, error := some "HTTP 500: internal error" }

/-- An inference probe that fails with HTTP 403. -/
def inferenceForbidden : String → InferenceOutcome :=
  fun _ => { ok := false, error := some "HTTP 403: forbidden" }

/-- **C1** (counterexample): with a configured key, a successful model
listing, and an inference probe that fails with a *non-403* error
(HTTP 500), `validate_provider` still returns `success=True`: the
`if not inference_success:` block only returns for 403/forbidden errors
and otherwise falls through to the success result.  The claim says any
inference-probe failure must yield `success=False`. -/
theorem validate_success_despite_failed_probe :
    (validateProvider [] "OpenRouter"
        { name := "OpenRouter", api_key := some "sk-test" } true
        listingOneModel inferenceServerError).1.success = true ∧
      (inferenceServerError "m1").ok = false := by
  exact ⟨by decide, by rfl⟩

/-- **C1** (amended): for a fresh (forced) validation, `success=True` holds
iff an API key is configured, the model listing succeeded with a nonempty
model list, and the inference probe on the first model either succeeded or
failed with an error not containing `403`/`forbidden`; and when the probe
does fail with a 403/forbidden error the result is a distinct failure
(`NO_PERMISSION`, `success=False`). -/
theorem validate_success_characterization
    (cache : List (String × ValidationResult)) (provider_name : String)
    (cfg : ProviderConfig) (listing : ListingOutcome)
    (inference : String → InferenceOutcome) :
    ((validateProvider cache provider_name cfg true listing inference).1.success
        = true ↔
      effectiveKey cfg.api_key cfg.api_key_encrypted ≠ none ∧
      listing.error = none ∧
      ∃ m rest, listing.models = m :: rest ∧
        ¬((inference m).ok = false ∧
          is403Err (strOfOpt (inference m).error) = true)) ∧
    (∀ m rest, listing.models = m :: rest → listing.error = none →
      effectiveKey cfg.api_key cfg.api_key_encrypted ≠ none →
      (inference m).ok = false →
      is403Err (strOfOpt (inference m).error) = true →
      (validateProvider cache provider_name cfg true listing
          inference).1.status = ValidationStatus.NO_PERMISSION ∧
      (validateProvider cache provider_name cfg true listing
          inference).1.success = false) := by
  constructor
  · unfold validateProvider
    simp only [show (true = false) = False by simp, if_false]
    cases hk : effectiveKey cfg.api_key cfg.api_key_encrypted with
    | none => simp
    | some k =>
      cases he : listing.error with
      | some e =>
        by_cases h401 : is401Err e = true
        · simp [h401]
        · by_cases h403 : is403Err e = true
          · simp [h401, h403]
          · simp [h401, h403]
      | none =>
        cases hm : listing.models with
        | nil => simp
        | cons m rest =>
          by_cases hp : (inference m).ok = false ∧
              is403Err (strOfOpt (inference m).error) = true
          · simp only [hp.1, hp.2, Bool.and_self, if_true]
            simp [hp]
          · rcases Decidable.not_and_iff_or_not.mp hp with h | h
            · have : (inference m).ok = true := by
                revert h; cases (inference m).ok <;> simp
              simp [this, hp]
            · have : is403Err (strOfOpt (inference m).error) = false := by
                revert h; cases is403Err (strOfOpt (inference m).error) <;> simp
              simp [this, hp]
  · intro m rest hm he hk hok h403
    unfold validateProvider
    simp only [show (true = false) = False by simp, if_false]
    cases hke : effectiveKey cfg.api_key cfg.api_key_encrypted with
    | none => exact absurd hke hk
    | some k =>
      simp only [he, hm, hok, h403, Bool.and_self, if_true]
      exact ⟨rfl, rfl⟩

/-- Witness for the amended **C1**: at a concrete input with listing ok and
a 403-failing probe, the characterization yields `NO_PERMISSION` and
`success=False`. -/
theorem validate_success_characterization_witness :
    (validateProvider [] "Hugging Face"
        { name := "Hugging Face", api_key := some "hf-token" } true
        listingOneModel inferenceForbidden).1.status
        = ValidationStatus.NO_PERMISSION ∧
    (validateProvider [] "Hugging Face"
        { name := "Hugging Face", api_key := some "hf-token" } true
        listingOneModel inferenceForbidden).1.success = false :=
  (validate_success_characterization [] "Hugging Face"
      { name := "Hugging Face", api_key := some "hf-token" }
      listingOneModel inferenceForbidden).2 "m1" [] rfl rfl
    (by simp [effectiveKey]) rfl (by decide)

end PreflightVal

namespace ModelSync

open PyPrim

/-- `ModelCatalog` dataclass of `model_ui_sync.py`; `last_sync` is a
seconds timestamp. -/
structure ModelCatalog where
  provider_name : String
  models : List String
  last_sync : Nat
  token_hash : String
  validation_passed : Bool
  error_message : Option String := none
  deriving DecidableEq, Repr

/-- `ModelCatalog.is_stale`: age strictly above the TTL.  `now` is the
current clock; the Python clock is monotone, so `now ≥ last_sync` in every
real run (`Nat` truncation agrees: an entry from the future is not stale
either way). -/
def ModelCatalog.is_stale (c : ModelCatalog) (now ttl_seconds : Nat) : Bool :=
  now - c.last_sync > ttl_seconds

/-- `ModelUISyncEnforcer` state: the TTL, the per-provider catalog dict and
the blocked-model set (a list here; only membership is used). -/
structure EnforcerState where
  cache_ttl : Nat := 300
  catalogs : List (String × ModelCatalog) := []
  blocked_models : List String := []
  deriving DecidableEq, Repr

/-- The `# Check cache` block of `sync_provider_models`: the cached entry
is used iff refresh is not forced, an entry exists, and it has the same
token hash, is not stale, and passed validation. -/
def cacheLookup (st : EnforcerState) (provider_name token_hash : String)
    (force_refresh : Bool) (now : Nat) : Option ModelCatalog :=
  if force_refresh = false then
    match dictGet? st.catalogs provider_name with
    | some cached =>
      if cached.token_hash == token_hash &&
          !(cached.is_stale now st.cache_ttl) &&
          cached.validation_passed then
        some cached
      else none
    | none => none
  else none

/-- The `# Build catalog` block of `sync_provider_models`: the catalog
recorded after a fresh validation (the result is cached regardless of
outcome). -/
def builtCatalog (hash : String → String) (provider_name api_token : String)
    (now : Nat) (fetchResult : PreflightVal.ValidationResult) : ModelCatalog :=
  { provider_name := provider_name,
    models := if fetchResult.success then fetchResult.available_models else [],
    last_sync := now,
    token_hash := hash api_token,
    validation_passed := fetchResult.success,
    error_message := if fetchResult.success then none
                     else fetchResult.error_message }

/-- `ModelUISyncEnforcer.sync_provider_models`.

`hash` abstracts `_hash_token` (a SHA-256 prefix — any fixed function of
the token; the claims only need that equal tokens hash equally, which any
function gives).  `now` is the clock at this call and `fetchResult` is what
`validator.validate_provider(..., force_refresh=True)` returns if the
network fetch is performed.  The returned `Bool` reports whether that fetch
happened (false exactly on the cache-hit path, which returns the cached
catalog unchanged). -/
def syncProviderModels (hash : String → String) (st : EnforcerState)
    (provider_name api_token : String) (force_refresh : Bool) (now : Nat)
    (fetchResult : PreflightVal.ValidationResult) :
    ModelCatalog × EnforcerState × Bool :=
  match cacheLookup st provider_name (hash api_token) force_refresh now with
  | some cached => (cached, st, false)
  | none =>
    let catalog := builtCatalog hash provider_name api_token now fetchResult
    (catalog,
     { st with catalogs := dictInsert st.catalogs provider_name catalog },
     true)

end ModelSync

namespace PyPrim

theorem dictGet?_dictInsert_self [BEq κ] [LawfulBEq κ]
    (l : List (κ × β)) (k : κ) (v : β) :
    dictGet? (dictInsert l k v) k = some v := by
  unfold dictGet? dictInsert
  by_cases h : l.any (fun kv => kv.1 == k)
  · simp only [h, if_true]
    induction l with
    | nil => simp at h
    | cons kv t ih =>
      by_cases hk : (kv.1 == k) = true
      · simp [List.find?, hk]
      · have hk' : (kv.1 == k) = false := by simpa using hk
        simp only [List.any_cons, hk', Bool.false_or] at h
        simpa [List.find?, hk'] using ih h
  · simp only [h, if_false]
    induction l with
    | nil => simp [List.find?]
    | cons kv t ih =>
      simp only [List.any_cons, Bool.or_eq_true, not_or] at h
      have hk' : (kv.1 == k) = false := by simpa using h.1
      simpa [List.find?, hk'] using ih (by simpa using h.2)

end PyPrim

namespace ModelSync

open PyPrim

/-- Helper: when a sync reports that it fetched, it took the fetch path:
it returns the freshly built catalog and stores it. -/
theorem sync_fetch_path (hash : String → String) (st : EnforcerState)
    (p tok : String) (fr : Bool) (now : Nat)
    (r : PreflightVal.ValidationResult)
    (h : (syncProviderModels hash st p tok fr now r).2.2 = true) :
    syncProviderModels hash st p tok fr now r =
      (builtCatalog hash p tok now r,
       { st with catalogs :=
           dictInsert st.catalogs p (builtCatalog hash p tok now r) },
       true) := by
  unfold syncProviderModels at h ⊢
  cases hc : cacheLookup st p (hash tok) fr now with
  | some c => rw [hc] at h; simp at h
  | none => rfl

/-- **C8** (confirmed): if a first `sync_provider_models` call performed the
network fetch and its validation passed, then a second call for the same
provider and token with `force_refresh=False`, made within the cache TTL,
returns the first call's catalog unchanged, leaves the state unchanged, and
performs no network fetch — exactly one fetch across the two calls (its
result does not even depend on the second call's would-be fetch outcome). -/
theorem sync_twice_within_ttl_single_fetch (hash : String → String)
    (st : EnforcerState) (p tok : String) (fr : Bool) (now₁ now₂ : Nat)
    (r₁ r₂ : PreflightVal.ValidationResult)
    (hfetch : (syncProviderModels hash st p tok fr now₁ r₁).2.2 = true)
    (hsucc : r₁.success = true)
    (hle : now₁ ≤ now₂)
    (httl : now₂ - now₁ ≤ st.cache_ttl) :
    syncProviderModels hash (syncProviderModels hash st p tok fr now₁ r₁).2.1
        p tok false now₂ r₂
      = ((syncProviderModels hash st p tok fr now₁ r₁).1,
         (syncProviderModels hash st p tok fr now₁ r₁).2.1, false) := by
  rw [sync_fetch_path hash st p tok fr now₁ r₁ hfetch]
  have hcl : cacheLookup
      { st with catalogs :=
          dictInsert st.catalogs p (builtCatalog hash p tok now₁ r₁) }
      p (hash tok) false now₂ = some (builtCatalog hash p tok now₁ r₁) := by
    unfold cacheLookup
    simp only [dictGet?_dictInsert_self]
    have hstale : (builtCatalog hash p tok now₁ r₁).is_stale now₂ st.cache_ttl
        = false := by
      simp only [ModelCatalog.is_stale, builtCatalog, gt_iff_lt,
        decide_eq_false_iff_not, not_lt]
      exact httl
    simp [builtCatalog, hstale, hsucc, ModelCatalog.is_stale] at hstale ⊢
    omega
  rw [syncProviderModels, hcl]

/-- State and outcomes for exercising the sync-cache theorems. -/
def okFetchResult : PreflightVal.ValidationResult :=
  { status := .VALID, provider_name := "OpenRouter", success := true,
    available_models := ["m1"], tested_model := some "m1" }

/-- A failed validation outcome (bad credential). -/
def brokenFetchResult : PreflightVal.ValidationResult :=
  { status := .INVALID_KEY, provider_name := "Hugging Face", success := false,
    error_message := some "API key invalid: HTTP 401" }

/-- Witness for **C8**: identity hash, empty state, first fetch at `t=0`
passing validation, second call at `t=10` (TTL 300). -/
theorem sync_twice_within_ttl_single_fetch_witness :
    syncProviderModels (fun t => t)
        (syncProviderModels (fun t => t) {} "OpenRouter" "tok" true 0
            okFetchResult).2.1
        "OpenRouter" "tok" false 10 okFetchResult
      = ((syncProviderModels (fun t => t) {} "OpenRouter" "tok" true 0
            okFetchResult).1,
         (syncProviderModels (fun t => t) {} "OpenRouter" "tok" true 0
            okFetchResult).2.1, false) :=
  sync_twice_within_ttl_single_fetch (fun t => t) {} "OpenRouter" "tok" true
    0 10 okFetchResult okFetchResult (by decide) (by decide) (by decide)
    (by decide)

/-- **C9** (counterexample): after a sync whose validation failed, a repeat
call for the same provider and credential with `force_refresh=False`,
well within the TTL, performs a new network fetch (`didFetch = true`): the
cache-hit path requires `validation_passed=True`, so the stored failed
entry is never served.  The claim says this second call is served from the
cache with no new fetch. -/
theorem sync_failed_result_refetches :
    (syncProviderModels (fun t => t)
        (syncProviderModels (fun t => t) {} "Hugging Face" "badtok" false 0
            brokenFetchResult).2.1
        "Hugging Face" "badtok" false 1 brokenFetchResult).2.2 = true ∧
    (syncProviderModels (fun t => t) {} "Hugging Face" "badtok" false 0
        brokenFetchResult).1.validation_passed = false := by
  exact ⟨by decide, by decide⟩

/-- **C9** (amended): a failed validation result *is* cached — the catalog
stored records `validation_passed=false` and the error message (and with
the same TTL as a success, not a shorter one) — but it is never *served*:
every subsequent non-forced call for that provider performs a new network
fetch, whatever the elapsed time. -/
theorem sync_failed_cached_never_served (hash : String → String)
    (st : EnforcerState) (p tok : String) (fr : Bool) (now now₂ : Nat)
    (r r₂ : PreflightVal.ValidationResult)
    (hfetch : (syncProviderModels hash st p tok fr now r).2.2 = true)
    (hfail : r.success = false) :
    dictGet? (syncProviderModels hash st p tok fr now r).2.1.catalogs p
        = some (builtCatalog hash p tok now r) ∧
    (builtCatalog hash p tok now r).validation_passed = false ∧
    (builtCatalog hash p tok now r).error_message = r.error_message ∧
    (syncProviderModels hash (syncProviderModels hash st p tok fr now r).2.1
        p tok false now₂ r₂).2.2 = true := by
  rw [sync_fetch_path hash st p tok fr now r hfetch]
  refine ⟨dictGet?_dictInsert_self _ _ _, by simp [builtCatalog, hfail],
    by simp [builtCatalog, hfail], ?_⟩
  have hcl : cacheLookup
      { st with catalogs :=
          dictInsert st.catalogs p (builtCatalog hash p tok now r) }
      p (hash tok) false now₂ = none := by
    unfold cacheLookup
    simp [dictGet?_dictInsert_self, builtCatalog, hfail]
  rw [syncProviderModels, hcl]

/-- Witness for the amended **C9**: concrete failed fetch stored at `t=5`,
repeat call at `t=6`. -/
theorem sync_failed_cached_never_served_witness :
    dictGet? (syncProviderModels (fun t => t) {} "Together AI" "tok2" true 5
        brokenFetchResult).2.1.catalogs "Together AI"
        = some (builtCatalog (fun t => t) "Together AI" "tok2" 5
            brokenFetchResult) ∧
    (builtCatalog (fun t => t) "Together AI" "tok2" 5
        brokenFetchResult).validation_passed = false ∧
    (builtCatalog (fun t => t) "Together AI" "tok2" 5
        brokenFetchResult).error_message = brokenFetchResult.error_message ∧
    (syncProviderModels (fun t => t)
        (syncProviderModels (fun t => t) {} "Together AI" "tok2" true 5
            brokenFetchResult).2.1
        "Together AI" "tok2" false 6 brokenFetchResult).2.2 = true :=
  sync_failed_cached_never_served (fun t => t) {} "Together AI" "tok2" true
    5 6 brokenFetchResult brokenFetchResult (by decide) (by decide)

end ModelSync

namespace Healing

open PyPrim

/-- `FailureReason` enum of `advanced_self_healing.py`. -/
inductive FailureReason where
  | AUTH_ERROR
  | PERMISSION_ERROR
  | RATE_LIMIT
  | MODEL_NOT_FOUND
  | QUOTA_EXCEEDED
  | TIMEOUT
  | CONNECTION_ERROR
  | INVALID_REQUEST
  | SERVER_ERROR
  | UNKNOWN
  deriving DecidableEq, BEq, Repr

/-- The `.value` strings of `FailureReason`. -/
def FailureReason.value : FailureReason → String
  | .AUTH_ERROR => "authentication_error"
  | .PERMISSION_ERROR => "permission_error"
  | .RATE_LIMIT => "rate_limit_exceeded"
  | .MODEL_NOT_FOUND => "model_not_found"
  | .QUOTA_EXCEEDED => "quota_exceeded"
  | .TIMEOUT => "timeout"
  | .CONNECTION_ERROR => "connection_error"
  | .INVALID_REQUEST => "invalid_request"
  | .SERVER_ERROR => "server_error"
  | .UNKNOWN => "unknown"

/-- `HealingAction` dataclass; the heterogeneous `details` dict is
modelled with its values rendered to strings (no claim reads into it). -/
structure HealingAction where
  action_type : String
  target : String
  reason : FailureReason
  timestamp : Nat
  success : Bool := false
  details : List (String × String) := []
  error : Option String := none
  deriving DecidableEq, Repr

/-- `ProviderHealthRecord` dataclass. -/
structure ProviderHealthRecord where
  provider_name : String
  healthy : Bool
  last_check : Nat
  last_success : Option Nat := none
  last_failure : Option Nat := none
  consecutive_failures : Nat := 0
  consecutive_successes : Nat := 0
  total_requests : Nat := 0
  successful_requests : Nat := 0
  failure_reasons : List (FailureReason × Nat) := []
  current_models : List String := []
  unavailable_models : List String := []
  permission_issues : List String := []
  deriving DecidableEq, Repr

/-- `ProviderHealthRecord.success_rate`. -/
def ProviderHealthRecord.success_rate (r : ProviderHealthRecord) : Rat :=
  if r.total_requests = 0 then 0
  else ((r.successful_requests : Rat) / (r.total_requests : Rat)) * 100

/-- The fresh record created on first sight of a provider. -/
def freshRecord (name : String) (now : Nat) : ProviderHealthRecord :=
  { provider_name := name, healthy := true, last_check := now }

/-- An entry of `ModelCatalogSync.find_alternative_models` (only the three
fields the healing manager reads). -/
structure AltModel where
  id : String
  provider : String
  context_length : Nat
  deriving DecidableEq, Repr

/-- `AdvancedSelfHealingManager` state.  The optional `model_catalog`
dependency is abstracted to its `find_alternative_models` lookup; the
callback lists are not modelled (none are registered by default and they
only log). -/
structure HealingState where
  provider_health : List (String × ProviderHealthRecord) := []
  healing_journal : List HealingAction := []
  max_journal_size : Nat := 1000
  max_retry_attempts : Nat := 3
  model_catalog : Option (String → String → List AltModel) := none
  enable_auto_fallback : Bool := true
  enable_permission_guidance : Bool := true

/-- The per-record mutation performed by `_record_failure` once the record
exists: stamp the failure, bump/reset the consecutive counters, count the
request and the reason, and mark unhealthy at three consecutive failures
(the literal `3` of the source). -/
def failureUpdate (r : ProviderHealthRecord) (failure_reason : FailureReason)
    (now : Nat) : ProviderHealthRecord :=
  let r := { r with
    last_failure := some now
    last_check := now
    consecutive_failures := r.consecutive_failures + 1
    consecutive_successes := 0
    total_requests := r.total_requests + 1 }
  let r := { r with
    failure_reasons :=
      dictInsert r.failure_reasons failure_reason
        ((dictGet? r.failure_reasons failure_reason).getD 0 + 1) }
  if r.consecutive_failures ≥ 3 then { r with healthy := false } else r

/-- `AdvancedSelfHealingManager._record_failure`. -/
def recordFailure (st : HealingState) (provider_name : String)
    (failure_reason : FailureReason) (now : Nat) : HealingState :=
  let record := (dictGet? st.provider_health provider_name).getD
    (freshRecord provider_name now)
  { st with
    provider_health := dictInsert st.provider_health provider_name
      (failureUpdate record failure_reason now) }

/-- The per-record mutation performed by `record_success` once the record
exists. -/
def successUpdate (r : ProviderHealthRecord) (model_id : Option String)
    (now : Nat) : ProviderHealthRecord :=
  let r := { r with
    last_success := some now
    last_check := now
    consecutive_successes := r.consecutive_successes + 1
    consecutive_failures := 0
    successful_requests := r.successful_requests + 1
    total_requests := r.total_requests + 1
    healthy := true }
  match model_id with
  | some m =>
    if (m != "") && !(r.current_models.contains m) then
      { r with current_models := r.current_models ++ [m] }
    else r
  | none => r

/-- `AdvancedSelfHealingManager.record_success`. -/
def recordSuccess (st : HealingState) (provider_name : String)
    (model_id : Option String) (now : Nat) : HealingState :=
  let record := (dictGet? st.provider_health provider_name).getD
    (freshRecord provider_name now)
  { st with
    provider_health := dictInsert st.provider_health provider_name
      (successUpdate record model_id now) }

/-- `AdvancedSelfHealingManager._journal_action`: append, then keep the
last `max_journal_size` entries (`journal[-max:]`). -/
def journalAction (st : HealingState) (action : HealingAction) : HealingState :=
  let journal := st.healing_journal ++ [action]
  let journal :=
    if journal.length > st.max_journal_size then
      journal.drop (journal.length - st.max_journal_size)
    else journal
  { st with healing_journal := journal }

/-- The `for action in healing_actions: self._journal_action(action)` loop
at the end of `handle_provider_failure`. -/
def journalActions (st : HealingState) (actions : List HealingAction) :
    HealingState :=
  actions.foldl journalAction st

/-- The `healthy_providers` list comprehension of
`_find_healthy_alternative_provider`: healthy records of other providers,
in the health dict's insertion order. -/
def healthyAlternatives (st : HealingState) (current_provider : String) :
    List (String × ProviderHealthRecord) :=
  st.provider_health.filter
    (fun nr => nr.2.healthy && nr.1 != current_provider)

/-- `AdvancedSelfHealingManager._find_healthy_alternative_provider`:
filter the health dict to healthy records of other providers, stable-sort
descending by `success_rate()` (Python `sort(key=..., reverse=True)`), and
take the head.  No priority value is consulted anywhere. -/
def findHealthyAlternativeProvider (st : HealingState)
    (current_provider : String) : Option String :=
  let healthy_providers := healthyAlternatives st current_provider
  let sorted := pySortBy
    (fun a b => decide (b.2.success_rate < a.2.success_rate)) healthy_providers
  match sorted with
  | [] => none
  | h :: _ => some h.1

/-- The `# Mark model as unavailable for this provider` block of
`_handle_model_not_found`. -/
def markModelUnavailable (st : HealingState) (provider_name model_id : String) :
    HealingState :=
  match dictGet? st.provider_health provider_name with
  | some record =>
    if record.unavailable_models.contains model_id then st
    else { st with
      provider_health :=
        dictInsert st.provider_health provider_name
          { record with
            unavailable_models := record.unavailable_models ++ [model_id] } }
  | none => st

/-- `AdvancedSelfHealingManager._handle_model_not_found`. -/
def handleModelNotFound (st : HealingState) (provider_name model_id : String)
    (now : Nat) : HealingAction × Option String × Option String × HealingState :=
  let st := markModelUnavailable st provider_name model_id
  let noAlt : HealingAction × Option String × Option String × HealingState :=
    ({ action_type := "fallback_model", target := model_id,
       reason := .MODEL_NOT_FOUND, timestamp := now, success := false,
       error := some "No alternative model found" }, none, none, st)
  match st.model_catalog with
  | some catalog =>
    match catalog model_id provider_name with
    | alt :: _ =>
      ({ action_type := "fallback_model", target := alt.id,
         reason := .MODEL_NOT_FOUND, timestamp := now, success := true,
         details := [("original_model", model_id),
                     ("alternative_model", alt.id),
                     ("provider", alt.provider),
                     ("context_length", toString alt.context_length)] },
       some alt.provider, some alt.id, st)
    | [] => noAlt
  | none => noAlt

/-- `AdvancedSelfHealingManager._parse_permission_requirements`. -/
def parsePermissionRequirements (error_details : Option String) : List String :=
  match error_details with
  | none => ["inference", "models:read"]
  | some e =>
    if e = "" then ["inference", "models:read"]
    else
      let el := lowerStr e
      let scopes :=
        (if containsSub "inference" el then ["inference"] else []) ++
        (if containsSub "chat" el then ["chat.completions"] else []) ++
        (if containsSub "model" el && containsSub "read" el then
           ["models:read"] else [])
      if scopes = [] then ["inference", "models:read"] else scopes

/-- The `# Track permission issue` block of `_handle_permission_error`. -/
def trackPermissionIssue (st : HealingState) (provider_name : String)
    (error_details : Option String) : HealingState :=
  match dictGet? st.provider_health provider_name with
  | some record =>
    let issue_str :=
      match error_details with
      | some e => if e = "" then "Unknown permission issue" else e.take 100
      | none => "Unknown permission issue"
    if record.permission_issues.contains issue_str then st
    else { st with
      provider_health :=
        dictInsert st.provider_health provider_name
          { record with
            permission_issues := record.permission_issues ++ [issue_str] } }
  | none => st

/-- `AdvancedSelfHealingManager._handle_permission_error` (the registered
callbacks list is empty by default, so only the guidance action and the
permission-issue tracking are modelled). -/
def handlePermissionError (st : HealingState) (provider_name : String)
    (error_details : Option String) (now : Nat) :
    HealingAction × HealingState :=
  let required_scopes := parsePermissionRequirements error_details
  let guidance : List (String × String) :=
    [("provider", provider_name),
     ("message", "Insufficient permissions for " ++ provider_name),
     ("required_scopes", String.intercalate ", " required_scopes),
     ("fix_steps", String.intercalate "; "
        ["1. Go to " ++ provider_name ++ " dashboard",
         "2. Regenerate API token with required permissions",
         "3. Update token in HUD settings",
         "4. Reconnect to apply changes"]),
     ("actionable", "True")]
  let st := trackPermissionIssue st provider_name error_details
  ({ action_type := "guide_permission_fix", target := provider_name,
     reason := .PERMISSION_ERROR, timestamp := now, details := guidance }, st)

/-- `AdvancedSelfHealingManager.handle_provider_failure`.  Returns the
`(alternative_provider, alternative_model, healing_actions)` triple plus
the updated manager state.  Early `return`s skip the journaling loop at the
end of the source function; branches that fall through journal whatever the
local `healing_actions` list holds at that point. -/
def handleProviderFailure (st : HealingState) (provider_name model_id : String)
    (failure_reason : FailureReason) (error_details : Option String)
    (now : Nat) :
    (Option String × Option String × List HealingAction) × HealingState :=
  let st := recordFailure st provider_name failure_reason now
  if failure_reason = .MODEL_NOT_FOUND then
    let (action, alt_provider, alt_model, st) :=
      handleModelNotFound st provider_name model_id now
    let healing_actions := [action]
    match alt_model with
    | some am => ((alt_provider, some am, healing_actions), st)
    | none => ((none, none, healing_actions), journalActions st healing_actions)
  else if failure_reason = .PERMISSION_ERROR then
    let (action, st) := handlePermissionError st provider_name error_details now
    let healing_actions := [action]
    match findHealthyAlternativeProvider st provider_name with
    | some alt =>
      let rot : HealingAction :=
        { action_type := "rotate_provider", target := alt,
          reason := failure_reason, timestamp := now, success := true,
          details := [("from", provider_name), ("to", alt)] }
      ((some alt, some model_id, healing_actions ++ [rot]), st)
    | none => ((none, none, healing_actions), journalActions st healing_actions)
  else if failure_reason = .RATE_LIMIT ∨ failure_reason = .QUOTA_EXCEEDED then
    match findHealthyAlternativeProvider st provider_name with
    | some alt =>
      let act : HealingAction :=
        { action_type := "rotate_provider", target := alt,
          reason := failure_reason, timestamp := now, success := true,
          details := [("from", provider_name), ("to", alt),
                      ("reason", failure_reason.value)] }
      ((some alt, some model_id, [act]), st)
    | none => ((none, none, []), journalActions st [])
  else if failure_reason = .TIMEOUT ∨ failure_reason = .CONNECTION_ERROR then
    let record := (dictGet? st.provider_health provider_name).getD
      (freshRecord provider_name now)
    if record.consecutive_failures < st.max_retry_attempts then
      let act : HealingAction :=
        { action_type := "retry_with_backoff", target := provider_name,
          reason := failure_reason, timestamp := now,
          details := [("retry_count", toString record.consecutive_failures)] }
      ((some provider_name, some model_id, [act]), st)
    else
      match findHealthyAlternativeProvider st provider_name with
      | some alt =>
        let act : HealingAction :=
          { action_type := "rotate_provider", target := alt,
            reason := failure_reason, timestamp := now, success := true,
            details := [("from", provider_name),
                        ("max_retries_exceeded", "True")] }
        ((some alt, some model_id, [act]), st)
      | none => ((none, none, []), journalActions st [])
  else if failure_reason = .AUTH_ERROR then
    let act : HealingAction :=
      { action_type := "notify_user", target := provider_name,
        reason := failure_reason, timestamp := now,
        details := [("message", "API key for " ++ provider_name ++
                      " is invalid. Please update in settings."),
                    ("actionable", "True"),
                    ("action_url", "/settings/api-keys")] }
    ((none, none, [act]), journalActions st [act])
  else
    ((none, none, []), journalActions st [])

/-- `AdvancedSelfHealingManager.classify_error`, message-based part. -/
def classifyByMessage (error_message : Option String) : FailureReason :=
  match error_message with
  | some msg =>
    if msg = "" then .UNKNOWN
    else
      let m := lowerStr msg
      if containsSub "timeout" m then .TIMEOUT
      else if containsSub "connection" m then .CONNECTION_ERROR
      else if containsSub "permission" m || containsSub "forbidden" m then
        .PERMISSION_ERROR
      else if containsSub "rate limit" m || containsSub "too many requests" m then
        .RATE_LIMIT
      else if containsSub "quota" m || containsSub "exceeded" m then
        .QUOTA_EXCEEDED
      else if containsSub "not found" m || containsSub "does not exist" m then
        .MODEL_NOT_FOUND
      else if containsSub "unauthorized" m || containsSub "invalid" m then
        .AUTH_ERROR
      else .UNKNOWN
  | none => .UNKNOWN

/-- `AdvancedSelfHealingManager.classify_error` (a status code of `0` is
falsy in Python and skips the code table, as does `None`). -/
def classifyError (status_code : Option Nat) (error_message : Option String) :
    FailureReason :=
  match status_code with
  | some c =>
    if c ≠ 0 then
      if c = 401 then .AUTH_ERROR
      else if c = 403 then .PERMISSION_ERROR
      else if c = 404 then .MODEL_NOT_FOUND
      else if c = 429 then .RATE_LIMIT
      else if c = 402 then .QUOTA_EXCEEDED
      else if c ≥ 500 then .SERVER_ERROR
      else if c = 400 then .INVALID_REQUEST
      else classifyByMessage error_message
    else classifyByMessage error_message
  | none => classifyByMessage error_message

end Healing

namespace Healing

open PyPrim

/-- Health records reachable from a fresh record by any sequence of
`_record_failure` / `record_success` operations (their per-record
mutations, which `recordFailure`/`recordSuccess` apply verbatim to the
stored or freshly created record). -/
inductive ReachableRecord : ProviderHealthRecord → Prop where
  | fresh (name : String) (now : Nat) : ReachableRecord (freshRecord name now)
  | fail (r : ProviderHealthRecord) (reason : FailureReason) (now : Nat) :
      ReachableRecord r → ReachableRecord (failureUpdate r reason now)
  | succ (r : ProviderHealthRecord) (model_id : Option String) (now : Nat) :
      ReachableRecord r → ReachableRecord (successUpdate r model_id now)

/-- **C7** (confirmed): in every record reachable from a fresh record by
`record_success`/`_record_failure` sequences, the record is marked
unhealthy (`healthy = false`, the spec's OFFLINE) iff
`consecutive_failures` has reached the failure threshold 3, and the two
consecutive counters are mutually exclusive (at least one is zero). -/
theorem health_record_invariant (r : ProviderHealthRecord)
    (h : ReachableRecord r) :
    (r.healthy = false ↔ 3 ≤ r.consecutive_failures) ∧
    (r.consecutive_failures = 0 ∨ r.consecutive_successes = 0) := by
  induction h with
  | fresh name now => simp [freshRecord]
  | fail r reason now _ ih =>
    obtain ⟨ih1, _⟩ := ih
    simp only [failureUpdate]
    split
    case isTrue h3 =>
      exact ⟨⟨fun _ => h3, fun _ => rfl⟩, Or.inr rfl⟩
    case isFalse h3 =>
      refine ⟨⟨fun hh => absurd (Nat.le_succ_of_le (ih1.mp hh)) h3,
               fun hh => absurd hh h3⟩, Or.inr rfl⟩
  | succ r model_id now _ _ =>
    simp only [successUpdate]
    cases model_id with
    | none => simp
    | some m =>
      split
      next t heq => split <;> simp
      next heq => simp

/-- Witness for **C7**: the invariant evaluated on the record reached by
one failure after creation. -/
theorem health_record_invariant_witness :
    ((failureUpdate (freshRecord "OpenRouter" 0) FailureReason.TIMEOUT 1).healthy
        = false ↔
      3 ≤ (failureUpdate (freshRecord "OpenRouter" 0)
            FailureReason.TIMEOUT 1).consecutive_failures) ∧
    ((failureUpdate (freshRecord "OpenRouter" 0)
        FailureReason.TIMEOUT 1).consecutive_failures = 0 ∨
     (failureUpdate (freshRecord "OpenRouter" 0)
        FailureReason.TIMEOUT 1).consecutive_successes = 0) :=
  health_record_invariant _
    (ReachableRecord.fail _ FailureReason.TIMEOUT 1
      (ReachableRecord.fresh "OpenRouter" 0))

end Healing

namespace Healing

open PyPrim

/-- The pair `(consecutive_failures, consecutive_successes)` of a
provider's health record, `(0, 0)` when no record exists yet. -/
def recordCounters (st : HealingState) (p : String) : Nat × Nat :=
  match dictGet? st.provider_health p with
  | some r => (r.consecutive_failures, r.consecutive_successes)
  | none => (0, 0)

theorem failureUpdate_counters (r : ProviderHealthRecord)
    (reason : FailureReason) (now : Nat) :
    (failureUpdate r reason now).consecutive_failures
        = r.consecutive_failures + 1 ∧
    (failureUpdate r reason now).consecutive_successes = 0 := by
  simp only [failureUpdate]
  split <;> exact ⟨rfl, rfl⟩

theorem recordCounters_recordFailure (st : HealingState) (p : String)
    (reason : FailureReason) (now : Nat) :
    recordCounters (recordFailure st p reason now) p
      = ((recordCounters st p).1 + 1, 0) := by
  unfold recordCounters recordFailure
  simp only [dictGet?_dictInsert_self]
  cases hg : dictGet? st.provider_health p with
  | some r0 =>
    simp only [hg, Option.getD_some]
    obtain ⟨h1, h2⟩ := failureUpdate_counters r0 reason now
    simp [h1, h2]
  | none =>
    simp only [hg, Option.getD_none]
    obtain ⟨h1, h2⟩ := failureUpdate_counters (freshRecord p now) reason now
    simp [h1, h2]
    simp [freshRecord]

theorem provider_health_journalActions (acts : List HealingAction)
    (st : HealingState) :
    (journalActions st acts).provider_health = st.provider_health := by
  induction acts generalizing st with
  | nil => rfl
  | cons a t ih => simpa [journalActions, List.foldl] using ih (journalAction st a)

theorem recordCounters_journalActions (st : HealingState)
    (acts : List HealingAction) (p : String) :
    recordCounters (journalActions st acts) p = recordCounters st p := by
  unfold recordCounters
  rw [provider_health_journalActions]

theorem recordCounters_markModelUnavailable (st : HealingState)
    (p m : String) :
    recordCounters (markModelUnavailable st p m) p = recordCounters st p := by
  unfold markModelUnavailable
  cases hg : dictGet? st.provider_health p with
  | none => rfl
  | some r0 =>
    split
    next record heq =>
      injection heq with h
      subst h
      split
      · rfl
      · simp [recordCounters, dictGet?_dictInsert_self, hg]
    next heq => rfl

theorem recordCounters_permissionAppend (st : HealingState) (p : String)
    (r0 : ProviderHealthRecord) (istr : String)
    (hg : dictGet? st.provider_health p = some r0) :
    recordCounters
      (if r0.permission_issues.contains istr = true then st
       else { st with
         provider_health :=
           dictInsert st.provider_health p
             { r0 with
               permission_issues := r0.permission_issues ++ [istr] } }) p
      = recordCounters st p := by
  split
  · rfl
  · simp [recordCounters, dictGet?_dictInsert_self, hg]

theorem recordCounters_trackPermissionIssue (st : HealingState)
    (p : String) (d : Option String) :
    recordCounters (trackPermissionIssue st p d) p = recordCounters st p := by
  unfold trackPermissionIssue
  cases hg : dictGet? st.provider_health p with
  | none => rfl
  | some r0 =>
    split
    next record heq =>
      injection heq with h
      subst h
      exact recordCounters_permissionAppend st p r0 _ hg
    next heq => rfl

theorem handleModelNotFound_state (st : HealingState) (p m : String)
    (now : Nat) :
    (handleModelNotFound st p m now).2.2.2 = markModelUnavailable st p m := by
  unfold handleModelNotFound
  dsimp only
  split
  · split <;> rfl
  · rfl

theorem handlePermissionError_state (st : HealingState) (p : String)
    (d : Option String) (now : Nat) :
    (handlePermissionError st p d now).2 = trackPermissionIssue st p d := rfl

/-- Every `handle_provider_failure` invocation leaves the provider's
consecutive counters exactly as `_record_failure` set them (the later
branch bookkeeping touches only other record fields and the journal). -/
theorem recordCounters_handleProviderFailure (st : HealingState)
    (p m : String) (reason : FailureReason) (d : Option String) (now : Nat) :
    recordCounters (handleProviderFailure st p m reason d now).2 p
      = recordCounters (recordFailure st p reason now) p := by
  unfold handleProviderFailure
  cases reason <;> simp only [reduceCtorEq, if_true, if_false, or_self,
    or_false, false_or, reduceIte]
  case MODEL_NOT_FOUND =>
    rcases hm : handleModelNotFound (recordFailure st p .MODEL_NOT_FOUND now)
        p m now with ⟨act, ap, am, st₂⟩
    have hst₂ : st₂ = markModelUnavailable
        (recordFailure st p .MODEL_NOT_FOUND now) p m := by
      have h := handleModelNotFound_state
        (recordFailure st p .MODEL_NOT_FOUND now) p m now
      rw [hm] at h
      exact h
    dsimp only
    cases am with
    | some a =>
      dsimp only
      rw [hst₂, recordCounters_markModelUnavailable]
    | none =>
      dsimp only
      rw [recordCounters_journalActions, hst₂,
        recordCounters_markModelUnavailable]
  case PERMISSION_ERROR =>
    rcases hp : handlePermissionError (recordFailure st p .PERMISSION_ERROR now)
        p d now with ⟨act, st₂⟩
    have hst₂ : st₂ = trackPermissionIssue
        (recordFailure st p .PERMISSION_ERROR now) p d := by
      have h := handlePermissionError_state
        (recordFailure st p .PERMISSION_ERROR now) p d now
      rw [hp] at h
      exact h
    dsimp only
    cases hf : findHealthyAlternativeProvider st₂ p with
    | some alt =>
      simp only [hf]
      rw [hst₂, recordCounters_trackPermissionIssue]
    | none =>
      simp only [hf]
      rw [recordCounters_journalActions, hst₂,
        recordCounters_trackPermissionIssue]
  case RATE_LIMIT =>
    cases hf : findHealthyAlternativeProvider
        (recordFailure st p .RATE_LIMIT now) p with
    | some alt => simp only [hf]
    | none => simp only [hf, recordCounters_journalActions]
  case QUOTA_EXCEEDED =>
    cases hf : findHealthyAlternativeProvider
        (recordFailure st p .QUOTA_EXCEEDED now) p with
    | some alt => simp only [hf]
    | none => simp only [hf, recordCounters_journalActions]
  case TIMEOUT =>
    split
    · rfl
    · cases hf : findHealthyAlternativeProvider
          (recordFailure st p .TIMEOUT now) p with
      | some alt => simp only [hf]
      | none => simp only [hf, recordCounters_journalActions]
  case CONNECTION_ERROR =>
    split
    · rfl
    · cases hf : findHealthyAlternativeProvider
          (recordFailure st p .CONNECTION_ERROR now) p with
      | some alt => simp only [hf]
      | none => simp only [hf, recordCounters_journalActions]
  case AUTH_ERROR => rw [recordCounters_journalActions]
  case INVALID_REQUEST => rw [recordCounters_journalActions]
  case SERVER_ERROR => rw [recordCounters_journalActions]
  case UNKNOWN => rw [recordCounters_journalActions]

end Healing

namespace Healing

/-- **C4** (counterexample): a `handle_provider_failure` invocation with a
classified reason of `SERVER_ERROR` (e.g. an HTTP 500) matches no strategy
branch: it appends nothing to the healing journal and returns an empty
action list, while still updating the failure counters.  The claim says
every invocation appends at least one HealingAction to the journal. -/
theorem handle_failure_server_error_journals_nothing :
    (handleProviderFailure {} "OpenRouter" "gpt-4" FailureReason.SERVER_ERROR
        none 0).2.healing_journal = [] ∧
    (handleProviderFailure {} "OpenRouter" "gpt-4" FailureReason.SERVER_ERROR
        none 0).1.2.2 = [] ∧
    recordCounters (handleProviderFailure {} "OpenRouter" "gpt-4"
        FailureReason.SERVER_ERROR none 0).2 "OpenRouter" = (1, 0) := by
  exact ⟨by rfl, by rfl, by rfl⟩

/-- **C4** (amended): every invocation of `handle_provider_failure` updates
the provider's health-record failure counters (`consecutive_failures`
incremented, `consecutive_successes` zeroed), but not every invocation
journals: reasons with no strategy branch (`SERVER_ERROR`,
`INVALID_REQUEST`, `UNKNOWN`) journal nothing and return no actions;
`AUTH_ERROR` journals exactly its one notify action; and the
`RATE_LIMIT`/`QUOTA_EXCEEDED` branches never journal (their rotation
actions are returned via an early `return` that skips the journaling
loop). -/
theorem handle_failure_counters_and_journal (st : HealingState)
    (p m : String) (reason : FailureReason) (d : Option String) (now : Nat) :
    recordCounters (handleProviderFailure st p m reason d now).2 p
        = ((recordCounters st p).1 + 1, 0) ∧
    ((reason = .SERVER_ERROR ∨ reason = .INVALID_REQUEST ∨ reason = .UNKNOWN) →
      (handleProviderFailure st p m reason d now).2.healing_journal
          = st.healing_journal ∧
      (handleProviderFailure st p m reason d now).1.2.2 = []) ∧
    (reason = .AUTH_ERROR →
      ∃ a, (handleProviderFailure st p m reason d now).1.2.2 = [a] ∧
        (handleProviderFailure st p m reason d now).2.healing_journal
          = (journalAction (recordFailure st p reason now) a).healing_journal) ∧
    ((reason = .RATE_LIMIT ∨ reason = .QUOTA_EXCEEDED) →
      (handleProviderFailure st p m reason d now).2.healing_journal
        = st.healing_journal) := by
  refine ⟨?_, ?_, ?_, ?_⟩
  · rw [recordCounters_handleProviderFailure, recordCounters_recordFailure]
  · rintro (rfl | rfl | rfl) <;> exact ⟨rfl, rfl⟩
  · rintro rfl
    exact ⟨_, rfl, rfl⟩
  · rintro (rfl | rfl) <;>
    · simp only [handleProviderFailure, reduceCtorEq, eq_self_iff_true,
        if_true, if_false, or_self, or_false, false_or, or_true, true_or,
        reduceIte]
      split <;> rfl

/-- Witness for the amended **C4**: an `AUTH_ERROR` invocation at a fresh
state increments the counters and journals its single notify action. -/
theorem handle_failure_counters_and_journal_witness :
    recordCounters (handleProviderFailure {} "Hugging Face" "m1"
        FailureReason.AUTH_ERROR none 3).2 "Hugging Face"
        = ((recordCounters ({} : HealingState) "Hugging Face").1 + 1, 0) ∧
    ∃ a, (handleProviderFailure {} "Hugging Face" "m1"
        FailureReason.AUTH_ERROR none 3).1.2.2 = [a] ∧
      (handleProviderFailure {} "Hugging Face" "m1"
          FailureReason.AUTH_ERROR none 3).2.healing_journal
        = (journalAction (recordFailure {} "Hugging Face"
            FailureReason.AUTH_ERROR 3) a).healing_journal :=
  ⟨(handle_failure_counters_and_journal {} "Hugging Face" "m1"
      FailureReason.AUTH_ERROR none 3).1,
   (handle_failure_counters_and_journal {} "Hugging Face" "m1"
      FailureReason.AUTH_ERROR none 3).2.2.1 rfl⟩

end Healing

namespace PyPrim

/-- The head of a stable descending sort by a rational key bounds the key
of every element of the input list. -/
theorem head_pySortBy_rate_max (key : α → Rat) (l : List α) (h : α)
    (t : List α)
    (hs : pySortBy (fun a b => decide (key b < key a)) l = h :: t) :
    ∀ y ∈ l, key y ≤ key h := by
  induction l generalizing h t with
  | nil => simp [pySortBy] at hs
  | cons x xs ih =>
    simp only [pySortBy] at hs
    cases hS : pySortBy (fun a b => decide (key b < key a)) xs with
    | nil =>
      have hxs : xs = [] := by
        have hlen := length_pySortBy (fun a b => decide (key b < key a)) xs
        rw [hS] at hlen
        exact List.length_eq_zero.mp hlen.symm
      rw [hS] at hs
      simp only [pyInsertBy] at hs
      injection hs with h1 h2
      subst h1
      intro y hy
      rw [hxs] at hy
      simp only [List.mem_singleton] at hy
      subst hy
      exact le_refl _
    | cons b s =>
      rw [hS] at hs
      have hb := ih b s hS
      simp only [pyInsertBy] at hs
      split at hs
      case isTrue hcond =>
        injection hs with h1 h2
        subst h1
        have hxb : key x < key b := of_decide_eq_true hcond
        intro y hy
        rcases List.mem_cons.mp hy with rfl | hy'
        · exact le_of_lt hxb
        · exact hb y hy'
      case isFalse hcond =>
        injection hs with h1 h2
        subst h1
        have hbx : key b ≤ key x := le_of_not_lt (fun hlt =>
          hcond (decide_eq_true hlt))
        intro y hy
        rcases List.mem_cons.mp hy with rfl | hy'
        · exact le_refl _
        · exact le_trans (hb y hy') hbx

end PyPrim

namespace Healing

open PyPrim

/-- Modelled from the spec: alternative-backend selection exactly as the
spec words it — among backends currently marked healthy (excluding the
failed one), pick the one with the highest historical success rate, ties
broken by the lowest configured `priority` value.  (The source code has no
priority input at all; this definition exists to compare the spec's rule
against the code's.) -/
def specAlternativeProvider (priority : String → Nat) (st : HealingState)
    (current : String) : Option String :=
  ((healthyAlternatives st current).foldl (fun acc x =>
    match acc with
    | none => some x
    | some b =>
      if b.2.success_rate < x.2.success_rate ∨
          (x.2.success_rate = b.2.success_rate ∧ priority x.1 < priority b.1)
      then some x else some b) none).map (·.1)

/-- A health record with a 50% historical success rate. -/
def recHalf (name : String) : ProviderHealthRecord :=
  { provider_name := name, healthy := true, last_check := 0,
    total_requests := 2, successful_requests := 1 }

/-- Two healthy backends with identical success rates, `Alpha` inserted
before `Beta` in the health dict. -/
def tieState : HealingState :=
  { provider_health := [("Alpha", recHalf "Alpha"), ("Beta", recHalf "Beta")] }

/-- A priority assignment in which `Beta` has the lowest (best) value. -/
def configuredPriority : String → Nat :=
  fun n => if n = "Beta" then 1 else 2

/-- **C5** (counterexample): with two healthy alternatives of equal
success rate where `Beta` carries the lower configured priority value, the
code selects `Alpha` (the stable sort keeps insertion order; no priority is
consulted), while the spec's tie-break rule demands `Beta`. -/
theorem rotation_ignores_priority :
    findHealthyAlternativeProvider tieState "Gamma" = some "Alpha" ∧
    specAlternativeProvider configuredPriority tieState "Gamma"
        = some "Beta" ∧
    (recHalf "Beta").success_rate = (recHalf "Alpha").success_rate ∧
    configuredPriority "Beta" < configuredPriority "Alpha" ∧
    ("Beta", recHalf "Beta") ∈ tieState.provider_health ∧
    (recHalf "Beta").healthy = true ∧ "Beta" ≠ ("Gamma" : String) := by
  refine ⟨?_, ?_, ?_, by decide, by simp [tieState], by rfl, by decide⟩
  · unfold findHealthyAlternativeProvider
    simp [healthyAlternatives, tieState, recHalf, pySortBy, pyInsertBy,
      ProviderHealthRecord.success_rate, lt_self_iff_false]
  · unfold specAlternativeProvider
    simp [healthyAlternatives, tieState, recHalf, configuredPriority,
      ProviderHealthRecord.success_rate, lt_self_iff_false]
  · simp [recHalf, ProviderHealthRecord.success_rate]

/-- **C5** (amended): rotation never selects the failed backend: the
selected backend is a healthy record of another provider with the maximal
historical success rate among all healthy alternatives; no priority
tie-break is applied (equal rates fall back to the health dict's insertion
order via the stable sort); and the selection is `none` exactly when every
healthy record belongs to the failed provider itself. -/
theorem find_alternative_characterization (st : HealingState)
    (current : String) :
    (findHealthyAlternativeProvider st current = none ↔
      ∀ pr ∈ st.provider_health, pr.2.healthy = true → pr.1 = current) ∧
    (∀ name, findHealthyAlternativeProvider st current = some name →
      ∃ r, (name, r) ∈ st.provider_health ∧ r.healthy = true ∧
        name ≠ current ∧
        ∀ pr ∈ st.provider_health, pr.2.healthy = true → pr.1 ≠ current →
          pr.2.success_rate ≤ r.success_rate) := by
  constructor
  · unfold findHealthyAlternativeProvider
    cases hS : pySortBy
        (fun a b => decide (b.2.success_rate < a.2.success_rate))
        (healthyAlternatives st current) with
    | nil =>
      simp only [hS]
      have hfil : healthyAlternatives st current = [] := by
        have hlen := length_pySortBy
          (fun a b => decide (b.2.success_rate < a.2.success_rate))
          (healthyAlternatives st current)
        rw [hS] at hlen
        exact List.length_eq_zero.mp hlen.symm
      unfold healthyAlternatives at hfil
      rw [List.filter_eq_nil] at hfil
      constructor
      · intro _ pr hpr hh
        have := hfil pr hpr
        simp only [Bool.and_eq_true, bne_iff_ne, not_and, ne_eq,
          not_not] at this
        exact this hh
      · intro _
        trivial
    | cons h t =>
      simp only [hS]
      constructor
      · intro hcontra
        exact absurd hcontra (by simp)
      · intro hall
        exfalso
        have hmem : h ∈ healthyAlternatives st current := by
          have := (mem_pySortBy
            (fun a b => decide (b.2.success_rate < a.2.success_rate)) h
            (healthyAlternatives st current)).mp (by rw [hS]; simp)
          exact this
        unfold healthyAlternatives at hmem
        rw [List.mem_filter] at hmem
        obtain ⟨hmem', hpred⟩ := hmem
        simp only [Bool.and_eq_true, bne_iff_ne, ne_eq] at hpred
        exact hpred.2 (hall h hmem' hpred.1)
  · intro name hname
    unfold findHealthyAlternativeProvider at hname
    cases hS : pySortBy
        (fun a b => decide (b.2.success_rate < a.2.success_rate))
        (healthyAlternatives st current) with
    | nil =>
      simp only [hS] at hname
      exact absurd hname (by simp)
    | cons h t =>
      simp only [hS] at hname
      simp only [Option.some.injEq] at hname
      have hmem : h ∈ healthyAlternatives st current :=
        (mem_pySortBy _ h _).mp (by rw [hS]; simp)
      have hmax := head_pySortBy_rate_max (fun nr => nr.2.success_rate)
        (healthyAlternatives st current) h t hS
      unfold healthyAlternatives at hmem
      rw [List.mem_filter] at hmem
      obtain ⟨hmem', hpred⟩ := hmem
      simp only [Bool.and_eq_true, bne_iff_ne, ne_eq] at hpred
      refine ⟨h.2, ?_, hpred.1, ?_, ?_⟩
      · rw [← hname]
        simpa using hmem'
      · rw [← hname]; exact hpred.2
      · intro pr hpr hh hne
        have hprfil : pr ∈ healthyAlternatives st current := by
          unfold healthyAlternatives
          rw [List.mem_filter]
          exact ⟨hpr, by simp [hh, hne]⟩
        exact hmax pr hprfil

/-- Witness for the amended **C5**: the characterization applied to the
two-backend tie state. -/
theorem find_alternative_characterization_witness :
    ∃ r, ("Alpha", r) ∈ tieState.provider_health ∧ r.healthy = true ∧
      "Alpha" ≠ "Gamma" ∧
      ∀ pr ∈ tieState.provider_health, pr.2.healthy = true →
        pr.1 ≠ "Gamma" → pr.2.success_rate ≤ r.success_rate :=
  (find_alternative_characterization tieState "Gamma").2 "Alpha" (by
    unfold findHealthyAlternativeProvider
    simp [healthyAlternatives, tieState, recHalf, pySortBy, pyInsertBy,
      ProviderHealthRecord.success_rate, lt_self_iff_false])

end Healing

namespace Bridge

open PyPrim Healing

/-- The slice of a provider's config dict that the cloud-provider loop of
`ExoBridgeManager.chat_completion` reads (`ptype` is the dict's `type`
key; URL/header fields shape the HTTP request, which is abstracted into
the per-provider `RequestOutcome`). -/
structure CloudProvider where
  name : String
  status : String := ""
  ptype : String := ""
  base_url : String := ""
  chat_endpoint : String := ""
  headers : List (String × String) := []
  api_key : Option String := none
  api_key_encrypted : Option String := none
  priority : Nat := 999
  deriving DecidableEq, Repr

/-- An entry of `cloud_health_monitor.check_all_providers()`. -/
structure ProviderHealth where
  healthy : Bool
  error : Option String := none
  available_models : List String := []
  deriving Repr

/-- What `requests.post` did for one provider attempt. -/
inductive RequestOutcome where
  | ok (body : String)
  | httpError (code : Nat) (text : String)
  | timeout
  | exn (msg : String)
  deriving Repr

/-- The `for provider in providers:` loop of `cloud_provider_callback`
(the per-iteration `detailed_logs` strings are not modelled; the healing
actions accumulator `acc` is).  A 200 response returns immediately after
`record_success`; every failure path falls through to the next provider;
an exhausted list returns the fixed aggregate error string. -/
def tryProviders (model : String) (health : String → Option ProviderHealth)
    (net : String → RequestOutcome) (now : Nat) :
    List CloudProvider → HealingState → List HealingAction →
    (String × Option String) × HealingState × List HealingAction
  | [], hst, acc =>
    (("", some "All cloud providers failed. See detailed logs."), hst, acc)
  | p :: rest, hst, acc =>
    -- Check if provider is healthy
    let skipUnhealthy :=
      match health p.name with
      | some h => !h.healthy
      | none => false
    if skipUnhealthy then tryProviders model health net now rest hst acc
    else
      -- Get API key
      match effectiveKey p.api_key p.api_key_encrypted with
      | none => tryProviders model health net now rest hst acc
      | some _api_key =>
        match net p.name with
        | .ok body =>
          -- Record success in healing manager, return parsed body
          ((body, none), recordSuccess hst p.name (some model) now, acc)
        | .httpError code text =>
          -- Classify failure and attempt healing, then continue
          let error_msg := "HTTP " ++ toString code ++ ": " ++ text.take 200
          let failure_reason := classifyError (some code) (some text)
          let res := handleProviderFailure hst p.name model failure_reason
            (some error_msg) now
          tryProviders model health net now rest res.2 (acc ++ res.1.2.2)
        | .timeout =>
          let res := handleProviderFailure hst p.name model .TIMEOUT
            (some "Request timeout (>30s)") now
          tryProviders model health net now rest res.2 (acc ++ res.1.2.2)
        | .exn _ => tryProviders model health net now rest hst acc

/-- `cloud_provider_callback` of `ExoBridgeManager.chat_completion`:
filter the configured providers to active non-local ones, fail fast when
none remain, sort ascending by configured priority (stable), then walk the
list.  Returns the `(response, error)` pair plus the healing-manager state
and the collected healing actions. -/
def cloudProviderCallback (model : String)
    (config_providers : List CloudProvider)
    (health : String → Option ProviderHealth)
    (net : String → RequestOutcome) (hst : HealingState) (now : Nat) :
    (String × Option String) × HealingState × List HealingAction :=
  let providers := config_providers.filter
    (fun p => p.status == "active" && p.ptype != "local")
  if providers = [] then (("", some "No cloud providers configured"), hst, [])
  else
    let providers := pySortBy (fun a b => decide (a.priority < b.priority))
      providers
    tryProviders model health net now providers hst []

end Bridge

namespace Bridge

open PyPrim Healing

/-- A single active cloud provider whose requests will fail. -/
def failingProvider : CloudProvider :=
  { name := "OpenRouter", status := "active", ptype := "cloud",
    base_url := "https://openrouter.ai/api",
    chat_endpoint := "v1/chat/completions", api_key := some "sk-or-1",
    priority := 1 }

/-- **C6** (counterexample): with one configured backend failing with an
HTTP 500 (classified `server_error`), the provider loop returns the fixed
string `"All cloud providers failed. See detailed logs."` — the returned
error names neither the backend nor its Impossibility/failure reason, so
it does not enumerate the failures encountered, contrary to the claim. -/
theorem aggregated_error_is_bare :
    (cloudProviderCallback "llama-3.2-3b" [failingProvider] (fun _ => none)
        (fun _ => .httpError 500 "upstream exploded") {} 0).1
      = ("", some "All cloud providers failed. See detailed logs.") ∧
    containsSub "OpenRouter"
        "All cloud providers failed. See detailed logs." = false ∧
    containsSub "server_error"
        "All cloud providers failed. See detailed logs." = false := by
  refine ⟨by decide, by decide, by decide⟩

/-- Helper: the provider loop either succeeds (no error) or ends with the
fixed aggregate message and an empty response body. -/
theorem tryProviders_result (model : String)
    (health : String → Option ProviderHealth)
    (net : String → RequestOutcome) (now : Nat) (l : List CloudProvider)
    (hst : HealingState) (acc : List HealingAction) :
    (tryProviders model health net now l hst acc).1.2 = none ∨
    (tryProviders model health net now l hst acc).1
      = ("", some "All cloud providers failed. See detailed logs.") := by
  induction l generalizing hst acc with
  | nil => exact Or.inr rfl
  | cons p rest ih =>
    unfold tryProviders
    dsimp only
    split
    · exact ih hst acc
    · cases effectiveKey p.api_key p.api_key_encrypted with
      | none => exact ih hst acc
      | some k =>
        cases net p.name with
        | ok body => exact Or.inl rfl
        | httpError code text => exact ih _ _
        | timeout => exact ih _ _
        | exn msg => exact ih hst acc

/-- **C6** (amended): when every provider attempt fails (or no providers
are configured), the loop returns an empty response together with a fixed,
non-empty aggregate error string — `"No cloud providers configured"` or
`"All cloud providers failed. See detailed logs."` — never a silent empty
result; the per-backend failures are carried in the returned
`healing_actions` list (and the `detailed_logs`), not in the error
string. -/
theorem callback_error_never_silent (model : String)
    (config_providers : List CloudProvider)
    (health : String → Option ProviderHealth)
    (net : String → RequestOutcome) (hst : HealingState) (now : Nat) :
    (cloudProviderCallback model config_providers health net hst now).1.2
        = none ∨
    (cloudProviderCallback model config_providers health net hst now).1
        = ("", some "No cloud providers configured") ∨
    (cloudProviderCallback model config_providers health net hst now).1
        = ("", some "All cloud providers failed. See detailed logs.") := by
  unfold cloudProviderCallback
  dsimp only
  split
  · exact Or.inr (Or.inl rfl)
  · rcases tryProviders_result model health net now
        (pySortBy (fun a b => decide (a.priority < b.priority))
          (config_providers.filter
            (fun p => p.status == "active" && p.ptype != "local")))
        hst [] with h | h
    · exact Or.inl h
    · exact Or.inr (Or.inr h)

end Bridge
